import Mathlib

/-!
# Sales-pipeline state machine: shallow embedding

A shallow embedding of the sales-pipeline core of the repository:

* the stage vocabulary and transition map (`src/src/App.tsx`, lines 71-154);
* the pipeline state machine `handleSalesStageChange` and its side-effect
  dialog save handlers (`src/src/components/ContactsTable.tsx`);
* the write-through synchronization layer `handleUpdate` with its per-key
  debounce (`src/src/components/ContactsTable.tsx`, lines 377-420);
* duplicate detection `findDuplicates` (ContactsTable lines 715-728);
* the phase-2 table's negotiation-price save
  (`src/src/components/Phase2ContactsTable.tsx`, lines 559-586).

JavaScript strings are modelled as Lean `String`, JS numbers as `ℚ`
(the claims only exercise exact decimal arithmetic), nullable fields as
`Option`, and the asynchronous record-store write as an explicit outcome
flag together with a trace of emitted operations.
-/

namespace CRM

/-! ## Stage vocabulary (src/src/App.tsx lines 73-154) -/

def PHASE_1_STAGES : List String :=
  ["Lead", "Approached", "Not Interested", "Demo Stage"]

def PHASE_2_STAGES : List String :=
  ["Request Demo", "Demo Created", "Decision Pending", "Approved", "Undecided", "Rejected"]

def PHASE_3_STAGES : List String :=
  ["Negotiating", "Closed Won", "In Development", "Completed", "Closed Lost"]

/-- The `Phase` union type: 'lead' | 'presentation' | 'conversion'. -/
inductive Phase where
  | lead
  | presentation
  | conversion
deriving DecidableEq, Repr

/-- `getSalesStagesForPhase` (App.tsx lines 105-116). -/
def getSalesStagesForPhase : Phase → List String
  | .lead => PHASE_1_STAGES
  | .presentation => PHASE_2_STAGES
  | .conversion => PHASE_3_STAGES

/-- `getPhaseNumber` (App.tsx lines 119-126). -/
def getPhaseNumber : Phase → Nat
  | .lead => 1
  | .presentation => 2
  | .conversion => 3

/-- `getPhaseName` (App.tsx lines 129-136); the default branch returns 'lead'. -/
def getPhaseName : Nat → Phase
  | 1 => .lead
  | 2 => .presentation
  | 3 => .conversion
  | _ => .lead

/-- Result record of `getPhaseTransition`. -/
structure PhaseTransition where
  targetPhase : Nat
  newStage : String
deriving DecidableEq, Repr

/-- `getPhaseTransition` (App.tsx lines 139-149). -/
def getPhaseTransition (salesStage : String) : Option PhaseTransition :=
  if salesStage = "Demo Stage" then some ⟨2, "Request Demo"⟩
  else if salesStage = "Approved" then some ⟨3, "Negotiating"⟩
  else none

/-- `isArchivedStage` (App.tsx lines 152-154). -/
def isArchivedStage (salesStage : String) : Bool :=
  ["Not Interested", "Rejected", "Closed Lost", "Completed"].contains salesStage

/-- `getDefaultStageForPhase` (ContactsTable.tsx lines 200-207): the entry
stage a contact receives when created in a phase. -/
def getDefaultStageForPhase : Phase → String
  | .lead => "Lead"
  | .presentation => "Request Demo"
  | .conversion => "Negotiating"

/-! ## JS primitives used by the sync layer

`parseInt`, `parseFloat` (after the code's own strip of everything but
digits and dots), string trimming/lowercasing and truthiness. -/

/-- JS whitespace for `trim` (the code only ever meets ASCII whitespace). -/
def jsIsWhitespace (c : Char) : Bool :=
  c = ' ' ∨ c = '\t' ∨ c = '\n' ∨ c = '\r'

/-- JS `String.prototype.trim`: strip whitespace from both ends. -/
def jsTrim (s : String) : String :=
  String.mk (((s.toList.dropWhile jsIsWhitespace).reverse.dropWhile jsIsWhitespace).reverse)

/-- JS `String.prototype.toLowerCase` (per-character lowering). -/
def jsToLower (s : String) : String :=
  String.mk (s.toList.map Char.toLower)

/-- Numeric value of a decimal digit character. -/
def digitVal (c : Char) : Nat := c.toNat - '0'.toNat

/-- Decimal digits to a natural number. -/
def digitsToNat (ds : List Char) : Nat :=
  ds.foldl (fun acc c => 10 * acc + digitVal c) 0

/-- Hexadecimal digit test. -/
def isHexDigit (c : Char) : Bool :=
  c.isDigit || ('a' ≤ c ∧ c ≤ 'f') || ('A' ≤ c ∧ c ≤ 'F')

/-- Numeric value of a hexadecimal digit character. -/
def hexDigitVal (c : Char) : Nat :=
  if c.isDigit then digitVal c
  else if 'a' ≤ c ∧ c ≤ 'f' then c.toNat - 'a'.toNat + 10
  else c.toNat - 'A'.toNat + 10

/-- Hexadecimal digits to a natural number. -/
def hexDigitsToNat (ds : List Char) : Nat :=
  ds.foldl (fun acc c => 16 * acc + hexDigitVal c) 0

/-- Unsigned part of JS `parseInt(s)` with no radix argument: a `0x`/`0X`
prefix switches to base 16, otherwise the longest decimal-digit prefix is
taken; no digits at all gives NaN (`none`). -/
def jsParseIntUnsigned (cs : List Char) : Option Nat :=
  match cs with
  | '0' :: x :: rest =>
    if x = 'x' ∨ x = 'X' then
      let hs := rest.takeWhile isHexDigit
      if hs.isEmpty then none else some (hexDigitsToNat hs)
    else
      some (digitsToNat (('0' :: x :: rest).takeWhile Char.isDigit))
  | _ =>
    let ds := cs.takeWhile Char.isDigit
    if ds.isEmpty then none else some (digitsToNat ds)

/-- JS `parseInt(s)` with no radix argument: leading whitespace skipped,
optional sign, then the unsigned parse; NaN is `none`. -/
def jsParseInt (s : String) : Option Int :=
  match (jsTrim s).toList with
  | '-' :: rest => (jsParseIntUnsigned rest).map (fun n => -(n : Int))
  | '+' :: rest => (jsParseIntUnsigned rest).map (fun n => (n : Int))
  | cs => (jsParseIntUnsigned cs).map (fun n => (n : Int))

/-- `parseInt(value) || 0`: every falsy result (NaN, 0, -0) becomes 0. -/
def jsParseIntOr0 (s : String) : Int :=
  (jsParseInt s).getD 0

/-- The code's `String(value).replace(/[^\d.]/g, "")`: keep only decimal
digits and dots. -/
def stripNonDigitDot (s : String) : String :=
  String.mk (s.toList.filter (fun c => c.isDigit || c = '.'))

/-- JS `parseFloat` restricted to its use in the code, where the argument
has already been stripped to digits and dots: the longest prefix of the
form `digits [. digits]` is parsed; no digits at all is NaN (`none`). -/
def parseFloatStripped (s : String) : Option ℚ :=
  let cs := s.toList
  let intDigits := cs.takeWhile Char.isDigit
  let rest := cs.drop intDigits.length
  let fracDigits :=
    match rest with
    | '.' :: rs => rs.takeWhile Char.isDigit
    | _ => []
  if intDigits.isEmpty ∧ fracDigits.isEmpty then none
  else some ((digitsToNat intDigits : ℚ)
    + (digitsToNat fracDigits : ℚ) / (10 : ℚ) ^ fracDigits.length)

/-- JS truthiness of a nullable string: null and the empty string are falsy. -/
def jsTruthy : Option String → Bool
  | none => false
  | some s => s ≠ ""

/-! ## Field inputs and normalized update values (handleUpdate lines 377-387)

`handleUpdate` receives `value: string | number` and computes
`updateValue: string | number | null`. Numeric inputs in the code are
always integers (attempt counts), so `FieldInput.num` carries `Int`;
normalized numeric values may be decimals, so `FieldValue.num` carries `ℚ`. -/

inductive FieldInput where
  | str (s : String)
  | num (n : Int)
deriving DecidableEq, Repr

inductive FieldValue where
  | str (s : String)
  | num (q : ℚ)
  | null
deriving DecidableEq, Repr

/-- JS `String(value)` for the two input shapes (integers print as in JS). -/
def fieldInputToString : FieldInput → String
  | .str s => s
  | .num n => toString n

/-- The normalization at the head of `handleUpdate` (lines 378-387):

* `contact_count`: a number passes through, a string goes through
  `parseInt(value) || 0`;
* `value`: `parseFloat(String(value).replace(/[^\d.]/g, ""))`, `null` on NaN;
* any other field: strings are trimmed and become `null` when empty
  (`value.trim() || null`), non-strings pass through unchanged. -/
def normalizeUpdateValue (field : String) (value : FieldInput) : FieldValue :=
  if field = "contact_count" then
    match value with
    | .num n => .num (n : ℚ)
    | .str s => .num ((jsParseIntOr0 s : Int) : ℚ)
  else if field = "value" then
    match parseFloatStripped (stripNonDigitDot (fieldInputToString value)) with
    | some q => .num q
    | none => .null
  else
    match value with
    | .str s => if jsTrim s = "" then .null else .str (jsTrim s)
    | .num n => .num (n : ℚ)

/-! ## The contact record (ContactsTable.tsx lines 124-145)

Nullable text columns are `Option String`; `business_name` is typed
`string` in the interface but can hold null at runtime after a blanking
edit (`value.trim() || null`), so it is `Option String` too. -/

structure Contact where
  id : String
  category_id : String
  assigned_to : Option String
  business_name : Option String
  contact_name : Option String
  email : Option String
  mobile_number : Option String
  value : Option ℚ
  sales_stage : String
  link : Option String
  notes : Option String
  last_contacted_at : Option String
  contact_count : ℚ
  lead_source : Option String
  priority_level : Option String
  follow_up_at : Option String
  demo_instructions : Option String
  current_phase : Nat
  created_at : String
  updated_at : String
deriving DecidableEq, Repr

/-- A field-scoped partial update sent to the record store (the object
passed to `supabase.from("contacts").update(...)`): `none` means the
field is absent from the payload; for nullable columns the inner
`Option` is the written value. -/
structure Patch where
  sales_stage : Option String := none
  current_phase : Option Nat := none
  value : Option (Option ℚ) := none
  notes : Option (Option String) := none
  demo_instructions : Option (Option String) := none
  assigned_to : Option (Option String) := none
  business_name : Option (Option String) := none
  contact_name : Option (Option String) := none
  email : Option (Option String) := none
  mobile_number : Option (Option String) := none
  link : Option (Option String) := none
  lead_source : Option (Option String) := none
  last_contacted_at : Option (Option String) := none
  contact_count : Option ℚ := none
  updated_at : Option String := none
deriving DecidableEq, Repr

/-- Apply a field-scoped patch to a contact record: exactly the fields
present in the payload change (the record store's partial update, and
equally the optimistic spread `{ ...c, [field]: v, updated_at: ... }`). -/
def applyPatch (c : Contact) (p : Patch) : Contact :=
  { c with
    sales_stage := p.sales_stage.getD c.sales_stage
    current_phase := p.current_phase.getD c.current_phase
    value := p.value.getD c.value
    notes := p.notes.getD c.notes
    demo_instructions := p.demo_instructions.getD c.demo_instructions
    assigned_to := p.assigned_to.getD c.assigned_to
    business_name := p.business_name.getD c.business_name
    contact_name := p.contact_name.getD c.contact_name
    email := p.email.getD c.email
    mobile_number := p.mobile_number.getD c.mobile_number
    link := p.link.getD c.link
    lead_source := p.lead_source.getD c.lead_source
    last_contacted_at := p.last_contacted_at.getD c.last_contacted_at
    contact_count := p.contact_count.getD c.contact_count
    updated_at := p.updated_at.getD c.updated_at }

/-- The written value for a nullable text column. A numeric value is never
written to a text column by the code, so that shape writes nothing. -/
def textValue : FieldValue → Option (Option String)
  | .str s => some (some s)
  | .null => some none
  | .num _ => none

/-- The single-field write payload `{ [field]: updateValue, updated_at }`
built by `handleUpdate` (line 405) and equally its optimistic spread
(line 392). -/
def fieldPatch (field : String) (v : FieldValue) (now : String) : Patch :=
  if field = "sales_stage" then
    { sales_stage := match v with | .str s => some s | _ => none, updated_at := some now }
  else if field = "value" then
    { value := match v with | .num q => some (some q) | .null => some none | .str _ => none,
      updated_at := some now }
  else if field = "contact_count" then
    { contact_count := match v with | .num q => some q | _ => none, updated_at := some now }
  else if field = "notes" then { notes := textValue v, updated_at := some now }
  else if field = "business_name" then { business_name := textValue v, updated_at := some now }
  else if field = "contact_name" then { contact_name := textValue v, updated_at := some now }
  else if field = "email" then { email := textValue v, updated_at := some now }
  else if field = "mobile_number" then { mobile_number := textValue v, updated_at := some now }
  else if field = "link" then { link := textValue v, updated_at := some now }
  else if field = "lead_source" then { lead_source := textValue v, updated_at := some now }
  else if field = "assigned_to" then { assigned_to := textValue v, updated_at := some now }
  else if field = "demo_instructions" then
    { demo_instructions := textValue v, updated_at := some now }
  else if field = "last_contacted_at" then
    { last_contacted_at := textValue v, updated_at := some now }
  else { updated_at := some now }

/-! ## Operation traces

Side effects of one UI handler call, in order: record-store writes and
deletes, dialog openings, toast notifications, and view refetches. The
network outcome of a store write is an explicit `writeOk` argument. -/

inductive DialogKind where
  | demoRequest
  | rejectionReason
  | paymentConfirmation
deriving DecidableEq, Repr

inductive Op where
  | updateWrite (id : String) (patch : Patch) (ok : Bool)
  | deleteWrite (id : String) (ok : Bool)
  | openDialog (k : DialogKind)
  | toastSuccess (msg : String)
  | toastError (msg : String)
  | refetch
deriving DecidableEq, Repr

/-- Does the trace contain any record-store call (write or delete),
whether or not it succeeded? -/
def Op.isStoreCall : Op → Bool
  | .updateWrite _ _ _ => true
  | .deleteWrite _ _ => true
  | _ => false

/-- Record-store semantics of an operation: a successful `updateWrite`
patches the matching record field-by-field, a successful `deleteWrite`
removes it, everything else (including failed store calls) leaves the
store unchanged. -/
def applyOpToStore (store : List Contact) : Op → List Contact
  | .updateWrite id p ok =>
    if ok then store.map (fun c => if c.id = id then applyPatch c p else c) else store
  | .deleteWrite id ok => if ok then store.filter (fun c => c.id != id) else store
  | _ => store

def applyOpsToStore (store : List Contact) (ops : List Op) : List Contact :=
  ops.foldl applyOpToStore store

/-! ## Write-through synchronization layer (handleUpdate, lines 377-420) -/

/-- `handleUpdate(id, field, value, immediate = true)`: normalize, apply the
optimistic in-memory update, and perform the persisted write now. On write
failure a toast is surfaced and the optimistic value is left in place. -/
def handleUpdateImmediate (now : String) (contacts : List Contact) (id field : String)
    (value : FieldInput) (writeOk : Bool) : List Contact × List Op :=
  let updateValue := normalizeUpdateValue field value
  let p := fieldPatch field updateValue now
  let newContacts := contacts.map (fun c => if c.id = id then applyPatch c p else c)
  (newContacts,
    [Op.updateWrite id p writeOk]
      ++ if writeOk then [] else [Op.toastError "Failed to save changes"])

/-- The debounce quiescence delay (the literal 500 at line 418). -/
def DEBOUNCE_DELAY : Nat := 500

/-- Persisted writes produced by a time-ordered sequence of non-immediate
`handleUpdate` calls for one `(id, field)` coalescing key. Each call
cancels the pending timeout for the key (lines 398-400) and schedules its
own save `DEBOUNCE_DELAY` after its arrival (line 418); a scheduled save
fires only when no further call for the key arrives before its deadline. -/
def debounceWrites (field : String) : List (Nat × FieldInput) → List (Nat × FieldValue)
  | [] => []
  | (t, v) :: rest =>
    match rest with
    | [] => [(t + DEBOUNCE_DELAY, normalizeUpdateValue field v)]
    | (t2, _) :: _ =>
      if t2 < t + DEBOUNCE_DELAY then debounceWrites field rest
      else (t + DEBOUNCE_DELAY, normalizeUpdateValue field v) :: debounceWrites field rest

/-- All consecutive calls arrive within the quiescence window of the
previous call. -/
def rapidCalls : List (Nat × FieldInput) → Prop
  | [] => True
  | [_] => True
  | (t, _) :: (t2, v2) :: rest => t2 < t + DEBOUNCE_DELAY ∧ rapidCalls ((t2, v2) :: rest)

/-! ## Pipeline state machine (ContactsTable.tsx lines 422-471)

`handleSalesStageChange(contact, newStage)`, parameterised over the
table's `phase` prop, the in-memory `contacts` list, and the outcome of
the asynchronous store write. -/

def handleSalesStageChange (phase : Phase) (now : String) (contacts : List Contact)
    (contact : Contact) (newStage : String) (writeOk : Bool) : List Contact × List Op :=
  if newStage = "Request Demo" ∧ phase = .presentation then
    (contacts, [.openDialog .demoRequest])
  else if newStage = "Rejected" ∧ phase = .presentation then
    (contacts, [.openDialog .rejectionReason])
  else if newStage = "Closed Won" ∧ phase = .conversion then
    (contacts, [.openDialog .paymentConfirmation])
  else
    match getPhaseTransition newStage with
    | some tr =>
      let p : Patch :=
        { sales_stage := some tr.newStage, current_phase := some tr.targetPhase,
          updated_at := some now }
      if writeOk then
        (contacts.filter (fun c => c.id != contact.id),
         [.updateWrite contact.id p true,
          .toastSuccess ("Client moved to Phase " ++ toString tr.targetPhase ++ ": "
            ++ (if tr.targetPhase = 2 then "Presentation" else "Conversion"))])
      else
        (contacts, [.updateWrite contact.id p false, .toastError "Failed to move client"])
    | none => handleUpdateImmediate now contacts contact.id "sales_stage" (.str newStage) writeOk

/-- The new `notes` value built by `handleRejectionSave` (lines 506-509):
the tagged rejection block is appended to a non-empty existing body after
a blank line, and stands alone otherwise. -/
def rejectionNewNotes (existingNotes : Option String) (reason : String) : String :=
  let existing := existingNotes.getD ""
  if existing ≠ "" then existing ++ "\n\n[REJECTION REASON]: " ++ reason
  else "[REJECTION REASON]: " ++ reason

/-- `handleRejectionSave` (ContactsTable.tsx lines 503-528). -/
def handleRejectionSave (now : String) (contacts : List Contact) (rejectionContact : Contact)
    (reason : String) (writeOk : Bool) : List Contact × List Op :=
  let newNotes := rejectionNewNotes rejectionContact.notes reason
  let p : Patch :=
    { sales_stage := some "Rejected", notes := some (some newNotes), updated_at := some now }
  if writeOk then
    (contacts.filter (fun c => c.id != rejectionContact.id),
     [.updateWrite rejectionContact.id p true, .toastSuccess "Contact archived as rejected"])
  else
    (contacts,
     [.updateWrite rejectionContact.id p false, .toastError "Failed to save rejection"])

/-- `handleDemoRequestSave` (ContactsTable.tsx lines 474-500). -/
def handleDemoRequestSave (now : String) (contacts : List Contact) (demoRequestContact : Contact)
    (instructions : String) (assignedDeveloper : String) (writeOk : Bool) :
    List Contact × List Op :=
  let p : Patch :=
    { sales_stage := some "Request Demo", demo_instructions := some (some instructions),
      assigned_to := some (some assignedDeveloper), updated_at := some now }
  if writeOk then
    (contacts.map (fun c => if c.id = demoRequestContact.id then applyPatch c p else c),
     [.updateWrite demoRequestContact.id p true, .toastSuccess "Demo request sent to developer"])
  else
    (contacts,
     [.updateWrite demoRequestContact.id p false, .toastError "Failed to save demo request"])

/-- JS `Number.prototype.toLocaleString`; the locale-specific digit
grouping plays no part in any claim, so the amount is rendered plainly. -/
def jsToLocaleString (q : ℚ) : String := toString q

/-- The new `notes` value built by `handlePaymentSave` (lines 534-537). -/
def paymentNewNotes (existingNotes : Option String) (amount : ℚ) : String :=
  let existing := existingNotes.getD ""
  if existing ≠ "" then existing ++ "\n\n[PAYMENT RECEIVED]: ₱" ++ jsToLocaleString amount
  else "[PAYMENT RECEIVED]: ₱" ++ jsToLocaleString amount

/-- `handlePaymentSave` (ContactsTable.tsx lines 531-562). -/
def handlePaymentSave (now : String) (contacts : List Contact) (paymentContact : Contact)
    (amount : ℚ) (writeOk : Bool) : List Contact × List Op :=
  let newNotes := paymentNewNotes paymentContact.notes amount
  let p : Patch :=
    { sales_stage := some "Closed Won", value := some (some amount),
      notes := some (some newNotes), updated_at := some now }
  if writeOk then
    (contacts.map (fun c => if c.id = paymentContact.id then applyPatch c p else c),
     [.updateWrite paymentContact.id p true, .toastSuccess "Payment confirmed! 🎉"])
  else
    (contacts, [.updateWrite paymentContact.id p false, .toastError "Failed to save payment"])

/-- `handleSaveNegotiationPrice` (Phase2ContactsTable.tsx lines 559-586):
the phase-2 table's price-gated approval, writing the stage label
"Demo Approved" together with `current_phase = 3` and the parsed price. -/
def handleSaveNegotiationPrice (now : String) (contacts : List Contact)
    (approvedContact : Contact) (negotiationPrice : String) (writeOk : Bool) :
    List Contact × List Op :=
  let priceValue := parseFloatStripped (stripNonDigitDot negotiationPrice)
  let p : Patch :=
    { sales_stage := some "Demo Approved", value := some priceValue,
      current_phase := some 3, updated_at := some now }
  if writeOk then
    (contacts.filter (fun c => c.id != approvedContact.id),
     [.updateWrite approvedContact.id p true,
      .toastSuccess "Deal approved! Contact moved to Phase 3"])
  else
    (contacts, [.updateWrite approvedContact.id p false, .toastError "Failed to save approval"])

/-! ## Row creation, deletion, and blur (ContactsTable.tsx lines 564-634) -/

/-- The record inserted by `handleAddNew` (lines 568-577) once the store
has assigned `id` and the timestamps. -/
def newContactRecord (id categoryId : String) (phase : Phase) (userName : Option String)
    (now : String) : Contact :=
  { id := id
    category_id := categoryId
    assigned_to := if jsTruthy userName then userName else none
    business_name := some ""
    contact_name := none
    email := none
    mobile_number := none
    value := none
    sales_stage := getDefaultStageForPhase phase
    link := none
    notes := none
    last_contacted_at := none
    contact_count := 0
    lead_source := none
    priority_level := none
    follow_up_at := none
    demo_instructions := none
    current_phase := getPhaseNumber phase
    created_at := now
    updated_at := now }

/-- `handleDelete` (ContactsTable.tsx lines 590-599): a hard delete. -/
def handleDelete (contacts : List Contact) (id : String) (deleteOk : Bool) :
    List Contact × List Op :=
  if deleteOk then
    (contacts.filter (fun c => c.id != id),
     [.deleteWrite id true, .toastSuccess "Contact deleted"])
  else
    (contacts, [.deleteWrite id false, .toastError "Failed to delete contact"])

/-- `handleBlur` (ContactsTable.tsx lines 606-617): commit the edited cell
immediately; when the blurred cell is `business_name` of the freshly added
row and the confirmed value is blank, and the row (as rendered) has no
business name, email, or mobile number, the row is hard-deleted. -/
def handleBlur (now : String) (contacts : List Contact) (newRowId : Option String)
    (editValue : String) (id field : String) (writeOk deleteOk : Bool) :
    List Contact × List Op :=
  let step1 := handleUpdateImmediate now contacts id field (.str editValue) writeOk
  if newRowId = some id ∧ jsTrim editValue = "" ∧ field = "business_name" then
    match contacts.find? (fun c => c.id == id) with
    | some contact =>
      if ¬ jsTruthy contact.business_name ∧ ¬ jsTruthy contact.email
          ∧ ¬ jsTruthy contact.mobile_number then
        let step2 := handleDelete step1.1 id deleteOk
        (step2.1, step1.2 ++ step2.2)
      else step1
    | none => step1
  else step1

/-! ## Duplicate detection (ContactsTable.tsx lines 715-728) -/

inductive DupField where
  | business_name
  | link
  | email
  | mobile_number
deriving DecidableEq, Repr

def dupFieldValue (c : Contact) : DupField → Option String
  | .business_name => c.business_name
  | .link => c.link
  | .email => c.email
  | .mobile_number => c.mobile_number

/-- `findDuplicates(field, contactId, value)`: every other contact of the
current view whose field, trimmed and lower-cased, equals the given value;
null/blank given values never match. -/
def findDuplicates (contacts : List Contact) (field : DupField) (contactId : String)
    (value : Option String) : List Contact :=
  match value with
  | none => []
  | some v =>
    if jsTrim v = "" then []
    else
      let normalizedValue := jsToLower (jsTrim v)
      contacts.filter (fun c =>
        let fieldValue := dupFieldValue c field
        c.id != contactId && jsTruthy fieldValue &&
          jsToLower (jsTrim (fieldValue.getD "")) == normalizedValue)

/-! ## Active view (fetchContacts, ContactsTable.tsx lines 284-301)

The store rows of the category and phase, with archived stages filtered
out. The store query orders by `created_at` ascending; the claims are
insensitive to order, so store order is kept. -/

def fetchContacts (store : List Contact) (categoryId : String) (phase : Phase) :
    List Contact :=
  (store.filter (fun c =>
      c.category_id == categoryId && c.current_phase == getPhaseNumber phase)).filter
    (fun c => !(["Not Interested", "Rejected", "Closed Lost", "Completed"].contains c.sales_stage))

/-- Vocabulary-containment invariant of the data model: the stage label of
a record belongs to the stage set of its phase. -/
def vocabularyContained (c : Contact) : Prop :=
  c.sales_stage ∈ getSalesStagesForPhase (getPhaseName c.current_phase)

instance (c : Contact) : Decidable (vocabularyContained c) := by
  unfold vocabularyContained; infer_instance

/-! ## Sample records used by concrete witnesses and counterexamples -/

/-- A phase-1 contact as the phase-1 table displays it. -/
def sampleLead : Contact :=
  { id := "lead1", category_id := "cat1", assigned_to := some "agent"
    business_name := some "Acme Bakery", contact_name := some "Ann"
    email := some "ann@acme.test", mobile_number := some "0917", value := none
    sales_stage := "Lead", link := none, notes := none, last_contacted_at := none
    contact_count := 0, lead_source := some "Referral", priority_level := none
    follow_up_at := none, demo_instructions := none, current_phase := 1
    created_at := "2026-01-01", updated_at := "2026-01-01" }

/-- A phase-2 contact as the phase-2 table displays it. -/
def sampleP2 : Contact :=
  { sampleLead with id := "p2", sales_stage := "Demo Created", current_phase := 2 }

/-- A phase-3 contact as the phase-3 table displays it. -/
def sampleP3 : Contact :=
  { sampleLead with id := "p3", sales_stage := "Negotiating", current_phase := 3 }

/-!
# Theorems
-/

/-- C1: for every contact whose requested stage yields a transition
(phase-1 "Demo Stage", or phase-2 "Approved"), `handleSalesStageChange`
sets `current_phase` to the target phase and `sales_stage` to the target
phase's entry stage in one single write that also stamps `updated_at`,
and removes the contact from the current phase's active view; both fields
travel in the same patch, so no intermediate state is observable. -/
theorem c1_transition_atomic (phase : Phase) (now : String) (contacts : List Contact)
    (contact : Contact) (s : String)
    (h : (phase = Phase.lead ∧ s = "Demo Stage") ∨ (phase = Phase.presentation ∧ s = "Approved")) :
    ∃ (tr : PhaseTransition) (msg : String),
      getPhaseTransition s = some tr ∧
      tr.newStage = getDefaultStageForPhase (getPhaseName tr.targetPhase) ∧
      getPhaseNumber phase < tr.targetPhase ∧
      handleSalesStageChange phase now contacts contact s true
        = (contacts.filter (fun c => c.id != contact.id),
           [Op.updateWrite contact.id
              { sales_stage := some tr.newStage, current_phase := some tr.targetPhase,
                updated_at := some now } true,
            Op.toastSuccess msg]) := by
  rcases h with ⟨hp, hs⟩ | ⟨hp, hs⟩ <;> subst hp <;> subst hs
  · exact ⟨⟨2, "Request Demo"⟩, _, rfl, rfl, by decide, rfl⟩
  · exact ⟨⟨3, "Negotiating"⟩, _, rfl, rfl, by decide, rfl⟩

/-- C1 witness: the phase-1 "Demo Stage" transition evaluated on a
concrete phase-1 contact. -/
theorem c1_transition_atomic_witness :
    ∃ (tr : PhaseTransition) (msg : String),
      getPhaseTransition "Demo Stage" = some tr ∧
      tr.newStage = getDefaultStageForPhase (getPhaseName tr.targetPhase) ∧
      getPhaseNumber Phase.lead < tr.targetPhase ∧
      handleSalesStageChange Phase.lead "t1" [sampleLead] sampleLead "Demo Stage" true
        = ([sampleLead].filter (fun c => c.id != sampleLead.id),
           [Op.updateWrite sampleLead.id
              { sales_stage := some tr.newStage, current_phase := some tr.targetPhase,
                updated_at := some "t1" } true,
            Op.toastSuccess msg]) :=
  c1_transition_atomic Phase.lead "t1" [sampleLead] sampleLead "Demo Stage" (Or.inl ⟨rfl, rfl⟩)

/-- C3: N successive non-immediate `updateField` calls for one
`(id, field)` key, each arriving before the previous call's quiescence
delay elapses, produce exactly one persisted write, after the last call's
delay, carrying the last value; each call cancels the pending write. -/
theorem c3_debounce_coalescing (field : String) (calls : List (Nat × FieldInput))
    (hne : calls ≠ []) (hrapid : rapidCalls calls) :
    debounceWrites field calls
      = [((calls.getLast hne).1 + DEBOUNCE_DELAY,
          normalizeUpdateValue field (calls.getLast hne).2)] := by
  induction calls with
  | nil => exact absurd rfl hne
  | cons hd tl ih =>
    match tl, hrapid with
    | [], _ => simp [debounceWrites]
    | (t2, v2) :: rest, ⟨hlt, hr⟩ =>
      have hne2 : (t2, v2) :: rest ≠ [] := by simp
      rw [List.getLast_cons hne2]
      simp only [debounceWrites, hlt, if_pos]
      exact ih hne2 hr

/-- C3 witness: typing "A", "AB", "ABC" into notes 200 ms apart yields
one write, 500 ms after the last keystroke, carrying "ABC". -/
theorem c3_debounce_coalescing_witness :
    rapidCalls [((0 : Nat), FieldInput.str "A"), (200, .str "AB"), (400, .str "ABC")]
  ∧ debounceWrites "notes" [((0 : Nat), FieldInput.str "A"), (200, .str "AB"), (400, .str "ABC")]
      = [(900, FieldValue.str "ABC")] := by
  have hr : rapidCalls [((0 : Nat), FieldInput.str "A"), (200, .str "AB"), (400, .str "ABC")] := by
    simp [rapidCalls, DEBOUNCE_DELAY]
  refine ⟨hr, ?_⟩
  rw [c3_debounce_coalescing "notes" _ (by simp) hr]
  decide

/-- C7 counterexample: the numeric field `contact_count` does not
normalize unparsable free text to null — `parseInt(value) || 0` yields
the number 0 for "abc". -/
theorem c7_counterexample :
    normalizeUpdateValue "contact_count" (.str "abc") = .num 0 ∧
    normalizeUpdateValue "contact_count" (.str "abc") ≠ .null := by decide

/-- C4 counterexample: a requested stage outside the vocabulary of the
contact's phase ("Closed Lost" for a phase-1 contact) is not rejected:
the handler issues a persisted store write and mutates the in-memory row. -/
theorem c4_counterexample :
    "Closed Lost" ∉ getSalesStagesForPhase Phase.lead ∧
    ((handleSalesStageChange Phase.lead "t1" [sampleLead] sampleLead "Closed Lost" true).2.any
        Op.isStoreCall = true) ∧
    (handleSalesStageChange Phase.lead "t1" [sampleLead] sampleLead "Closed Lost" true).1
      ≠ [sampleLead] := by decide

/-- C5 counterexample: `current_phase` can decrease. Requesting
"Demo Stage" for a phase-3 contact writes `current_phase = 2`. -/
theorem c5_counterexample :
    sampleP3.current_phase = 3 ∧
    ((applyOpsToStore [sampleP3]
        (handleSalesStageChange Phase.conversion "t1" [sampleP3] sampleP3 "Demo Stage" true).2).map
      Contact.current_phase) = [2] := by decide

/-- C4 amended: the handler performs no defensive vocabulary validation.
For every requested stage outside the current phase's vocabulary a
record-store write is still issued (a transition write for trigger
stages, otherwise a plain `sales_stage` update). -/
theorem c4_no_defensive_validation (phase : Phase) (now : String) (contacts : List Contact)
    (c : Contact) (s : String) (ok : Bool) (h : s ∉ getSalesStagesForPhase phase) :
    ∃ p : Patch,
      Op.updateWrite c.id p ok ∈ (handleSalesStageChange phase now contacts c s ok).2 := by
  have h1 : ¬ (s = "Request Demo" ∧ phase = Phase.presentation) := by
    rintro ⟨rfl, rfl⟩; exact h (by decide)
  have h2 : ¬ (s = "Rejected" ∧ phase = Phase.presentation) := by
    rintro ⟨rfl, rfl⟩; exact h (by decide)
  have h3 : ¬ (s = "Closed Won" ∧ phase = Phase.conversion) := by
    rintro ⟨rfl, rfl⟩; exact h (by decide)
  unfold handleSalesStageChange
  rw [if_neg h1, if_neg h2, if_neg h3]
  cases htr : getPhaseTransition s with
  | some tr => cases ok <;> simp
  | none => simp [handleUpdateImmediate]

/-- C4 witness: "Closed Lost" requested for a phase-1 contact is outside
the phase-1 vocabulary, yet a store write is issued. -/
theorem c4_no_defensive_validation_witness :
    "Closed Lost" ∉ getSalesStagesForPhase Phase.lead ∧
    ∃ p : Patch, Op.updateWrite sampleLead.id p true
      ∈ (handleSalesStageChange Phase.lead "t1" [sampleLead] sampleLead "Closed Lost" true).2 :=
  ⟨by decide,
   c4_no_defensive_validation Phase.lead "t1" [sampleLead] sampleLead "Closed Lost" true
     (by decide)⟩

/-- The phase number of the edited record after one `handleSalesStageChange`
call: gated stages open a dialog and change nothing, transition triggers
land on their target phase, all else is a plain stage write. -/
def phaseAfterStageChange (phase : Phase) (s : String) : Nat :=
  if (s = "Request Demo" ∧ phase = Phase.presentation)
      ∨ (s = "Rejected" ∧ phase = Phase.presentation)
      ∨ (s = "Closed Won" ∧ phase = Phase.conversion) then getPhaseNumber phase
  else
    match getPhaseTransition s with
    | some tr => tr.targetPhase
    | none => getPhaseNumber phase

/-- The phase reached by a sequence of stage-change requests. -/
def runStageChanges (phase : Phase) : List String → Phase
  | [] => phase
  | s :: rest => runStageChanges (getPhaseName (phaseAfterStageChange phase s)) rest

/-- Every request of the sequence is drawn from the vocabulary of the
phase current at its turn — exactly the options the stage dropdown
offers (`getSalesStagesForPhase(phase)`, ContactsTable line 764). -/
def validRequests (phase : Phase) : List String → Prop
  | [] => True
  | s :: rest => s ∈ getSalesStagesForPhase phase
      ∧ validRequests (getPhaseName (phaseAfterStageChange phase s)) rest

/-- `phaseAfterStageChange` is exactly the phase of the record after the
handler's emitted operations are applied to the store. -/
theorem stageChange_phase_correspondence (phase : Phase) (now : String)
    (contacts : List Contact) (c : Contact) (s : String)
    (hc : c.current_phase = getPhaseNumber phase) :
    ((applyOpsToStore [c] (handleSalesStageChange phase now contacts c s true).2).map
        Contact.current_phase) = [phaseAfterStageChange phase s] := by
  by_cases h1 : s = "Request Demo" ∧ phase = Phase.presentation
  · simp [handleSalesStageChange, phaseAfterStageChange, h1, applyOpsToStore, applyOpToStore, hc]
  · by_cases h2 : s = "Rejected" ∧ phase = Phase.presentation
    · simp [handleSalesStageChange, phaseAfterStageChange, h1, h2, applyOpsToStore,
        applyOpToStore, hc]
    · by_cases h3 : s = "Closed Won" ∧ phase = Phase.conversion
      · simp [handleSalesStageChange, phaseAfterStageChange, h1, h2, h3, applyOpsToStore,
          applyOpToStore, hc]
      · unfold handleSalesStageChange phaseAfterStageChange
        rw [if_neg h1, if_neg h2, if_neg h3, if_neg (by tauto)]
        cases htr : getPhaseTransition s with
        | some tr =>
          simp [applyOpsToStore, applyOpToStore, applyPatch]
        | none =>
          simp [handleUpdateImmediate, applyOpsToStore, applyOpToStore, applyPatch, hc,
            fieldPatch]

/-- For vocabulary-valid requests the next phase never lies below the
current one, and it stays within 1..3. -/
theorem phaseAfter_bounds (phase : Phase) (s : String) (h : s ∈ getSalesStagesForPhase phase) :
    getPhaseNumber phase ≤ phaseAfterStageChange phase s
    ∧ 1 ≤ phaseAfterStageChange phase s ∧ phaseAfterStageChange phase s ≤ 3 := by
  cases phase <;>
    simp [getSalesStagesForPhase, PHASE_1_STAGES, PHASE_2_STAGES, PHASE_3_STAGES] at h <;>
    rcases h with rfl | rfl | rfl | rfl | rfl | rfl <;> decide

theorem getPhaseNumber_getPhaseName (n : Nat) (h1 : 1 ≤ n) (h3 : n ≤ 3) :
    getPhaseNumber (getPhaseName n) = n := by
  interval_cases n <;> decide

/-- C5 amended: restricted to vocabulary-valid requests (the only ones the
stage dropdown offers), `current_phase` never decreases over any sequence
of stage changes, the per-step phase function agrees with the handler's
store semantics, and the phase moves only via the defined triggers
(phase-1 "Demo Stage" to 2, phase-2 "Approved" to 3). -/
theorem c5_phase_monotone (phase : Phase) (ss : List String) (h : validRequests phase ss) :
    getPhaseNumber phase ≤ getPhaseNumber (runStageChanges phase ss)
  ∧ (∀ (now : String) (contacts : List Contact) (c : Contact) (s : String),
      c.current_phase = getPhaseNumber phase →
      ((applyOpsToStore [c] (handleSalesStageChange phase now contacts c s true).2).map
          Contact.current_phase) = [phaseAfterStageChange phase s])
  ∧ (∀ s ∈ getSalesStagesForPhase phase,
      phaseAfterStageChange phase s ≠ getPhaseNumber phase →
      (phase = Phase.lead ∧ s = "Demo Stage" ∧ phaseAfterStageChange phase s = 2)
    ∨ (phase = Phase.presentation ∧ s = "Approved" ∧ phaseAfterStageChange phase s = 3)) := by
  refine ⟨?_,
    fun now contacts c s hc => stageChange_phase_correspondence phase now contacts c s hc, ?_⟩
  · induction ss generalizing phase with
    | nil => exact le_refl _
    | cons s rest ih =>
      obtain ⟨hs, hrest⟩ := h
      have hb := phaseAfter_bounds phase s hs
      have hrun : runStageChanges phase (s :: rest)
          = runStageChanges (getPhaseName (phaseAfterStageChange phase s)) rest := rfl
      rw [hrun]
      calc getPhaseNumber phase ≤ phaseAfterStageChange phase s := hb.1
        _ = getPhaseNumber (getPhaseName (phaseAfterStageChange phase s)) :=
            (getPhaseNumber_getPhaseName _ hb.2.1 hb.2.2).symm
        _ ≤ _ := ih _ hrest
  · intro s hs hne
    cases phase <;>
      simp [getSalesStagesForPhase, PHASE_1_STAGES, PHASE_2_STAGES, PHASE_3_STAGES] at hs <;>
      rcases hs with rfl | rfl | rfl | rfl | rfl | rfl <;> revert hne <;> decide

/-- C5 witness: a vocabulary-valid request sequence from phase 1 keeps
the phase monotone. -/
theorem c5_phase_monotone_witness :
    validRequests Phase.lead ["Approached", "Demo Stage", "Approved"]
  ∧ getPhaseNumber Phase.lead
      ≤ getPhaseNumber (runStageChanges Phase.lead ["Approached", "Demo Stage", "Approved"]) := by
  have hv : validRequests Phase.lead ["Approached", "Demo Stage", "Approved"] := by
    refine ⟨by decide, by decide, by decide, trivial⟩
  exact ⟨hv, (c5_phase_monotone Phase.lead ["Approached", "Demo Stage", "Approved"] hv).1⟩

/-- C2 counterexample: the phase-2 table's negotiation-price save writes
`sales_stage = "Demo Approved"` together with `current_phase = 3`, and
"Demo Approved" is not in the phase-3 vocabulary — the containment
invariant is broken by this accepted operation. -/
theorem c2_counterexample :
    sampleP2.current_phase = 2 ∧
    ((applyOpsToStore [sampleP2]
        (handleSaveNegotiationPrice "t1" [sampleP2] sampleP2 "12000" true).2).map
      (fun c => decide (vocabularyContained c))) = [false] := by decide

/-- For every field other than `sales_stage`, the single-field write
payload touches neither `sales_stage` nor `current_phase`. -/
theorem fieldPatch_stage_none (field : String) (v : FieldValue) (now : String)
    (h : field ≠ "sales_stage") :
    (fieldPatch field v now).sales_stage = none
    ∧ (fieldPatch field v now).current_phase = none := by
  unfold fieldPatch
  rw [if_neg h]
  constructor <;>
    simp only [apply_ite Patch.sales_stage, apply_ite Patch.current_phase, ite_self]

/-- A patch that touches neither `sales_stage` nor `current_phase`
preserves vocabulary containment. -/
theorem vocab_applyPatch_of_none (c : Contact) (p : Patch) (h1 : p.sales_stage = none)
    (h2 : p.current_phase = none) (h : vocabularyContained c) :
    vocabularyContained (applyPatch c p) := by
  unfold vocabularyContained applyPatch at *
  simp only [h1, h2, Option.getD_none]
  exact h

/-- A failed stage-change write leaves the record store unchanged. -/
theorem stageChange_store_failure (phase : Phase) (now : String) (contacts : List Contact)
    (c : Contact) (s : String) :
    applyOpsToStore [c] (handleSalesStageChange phase now contacts c s false).2 = [c] := by
  by_cases h1 : s = "Request Demo" ∧ phase = Phase.presentation
  · simp [handleSalesStageChange, h1, applyOpsToStore, applyOpToStore]
  · by_cases h2 : s = "Rejected" ∧ phase = Phase.presentation
    · simp [handleSalesStageChange, h1, h2, applyOpsToStore, applyOpToStore]
    · by_cases h3 : s = "Closed Won" ∧ phase = Phase.conversion
      · simp [handleSalesStageChange, h1, h2, h3, applyOpsToStore, applyOpToStore]
      · unfold handleSalesStageChange
        rw [if_neg h1, if_neg h2, if_neg h3]
        cases htr : getPhaseTransition s with
        | some tr => simp [applyOpsToStore, applyOpToStore]
        | none => simp [handleUpdateImmediate, applyOpsToStore, applyOpToStore]

/-- A plain `sales_stage` write of a stage of the record's own phase
establishes vocabulary containment. -/
theorem vocab_plain_stage_write (c : Contact) (now : String) (s : String)
    (hn : normalizeUpdateValue "sales_stage" (.str s) = .str s)
    (hs : s ∈ getSalesStagesForPhase (getPhaseName c.current_phase)) :
    vocabularyContained
      (applyPatch c
        (fieldPatch "sales_stage" (normalizeUpdateValue "sales_stage" (.str s)) now)) := by
  rw [hn]
  unfold vocabularyContained applyPatch fieldPatch
  simpa using hs

set_option maxHeartbeats 1000000 in
/-- C2 amended: vocabulary containment holds after every ContactsTable
operation — stage changes whose requested stage is drawn from the phase's
own vocabulary (the only options the dropdown offers), the
rejection/demo-request/payment gated saves from their respective phases,
and plain writes to any field other than `sales_stage`. (The phase-2
table's negotiation save, by contrast, breaks it — see the
counterexample.) -/
theorem c2_vocab_containment_amended (phase : Phase) (now : String) (contacts : List Contact)
    (c : Contact) (ok : Bool)
    (hphase : c.current_phase = getPhaseNumber phase)
    (hpre : vocabularyContained c) :
    (∀ s ∈ getSalesStagesForPhase phase,
       ∀ r ∈ applyOpsToStore [c] (handleSalesStageChange phase now contacts c s ok).2,
         vocabularyContained r)
  ∧ (phase = Phase.presentation →
       ∀ reason, ∀ r ∈ applyOpsToStore [c] (handleRejectionSave now contacts c reason ok).2,
         vocabularyContained r)
  ∧ (phase = Phase.presentation →
       ∀ ins dev, ∀ r ∈ applyOpsToStore [c] (handleDemoRequestSave now contacts c ins dev ok).2,
         vocabularyContained r)
  ∧ (phase = Phase.conversion →
       ∀ amount, ∀ r ∈ applyOpsToStore [c] (handlePaymentSave now contacts c amount ok).2,
         vocabularyContained r)
  ∧ (∀ field v, field ≠ "sales_stage" →
       ∀ r ∈ applyOpsToStore [c] (handleUpdateImmediate now contacts c.id field v ok).2,
         vocabularyContained r) := by
  refine ⟨?_, ?_, ?_, ?_, ?_⟩
  · intro s hs r hr
    cases ok with
    | false =>
      rw [stageChange_store_failure] at hr
      simp only [List.mem_singleton] at hr
      subst hr; exact hpre
    | true =>
      cases phase <;>
        simp only [getSalesStagesForPhase, PHASE_1_STAGES, PHASE_2_STAGES, PHASE_3_STAGES,
          List.mem_cons, List.not_mem_nil, or_false] at hs <;>
        rcases hs with rfl | rfl | rfl | rfl | rfl | rfl <;>
        simp [handleSalesStageChange, getPhaseTransition, handleUpdateImmediate,
          applyOpsToStore, applyOpToStore] at hr <;>
        subst hr <;>
        first
          | exact hpre
          | exact vocab_plain_stage_write c now _ (by decide) (by rw [hphase]; decide)
          | (simp only [vocabularyContained, applyPatch, Option.getD_some]; decide)
  · rintro rfl reason r hr
    cases ok <;>
      simp [handleRejectionSave, applyOpsToStore, applyOpToStore] at hr <;> subst hr
    · exact hpre
    · simp only [vocabularyContained, applyPatch, Option.getD_some, Option.getD_none, hphase]
      decide
  · rintro rfl ins dev r hr
    cases ok <;>
      simp [handleDemoRequestSave, applyOpsToStore, applyOpToStore] at hr <;> subst hr
    · exact hpre
    · simp only [vocabularyContained, applyPatch, Option.getD_some, Option.getD_none, hphase]
      decide
  · rintro rfl amount r hr
    cases ok <;>
      simp [handlePaymentSave, applyOpsToStore, applyOpToStore] at hr <;> subst hr
    · exact hpre
    · simp only [vocabularyContained, applyPatch, Option.getD_some, Option.getD_none, hphase]
      decide
  · intro field v hfield r hr
    cases ok <;>
      simp [handleUpdateImmediate, applyOpsToStore, applyOpToStore] at hr <;> subst hr
    · exact hpre
    · exact vocab_applyPatch_of_none c _ (fieldPatch_stage_none field _ now hfield).1
        (fieldPatch_stage_none field _ now hfield).2 hpre

/-- C2 amended witness: a vocabulary-valid plain stage change for a
phase-2 contact keeps containment. -/
theorem c2_vocab_containment_amended_witness :
    sampleP2.current_phase = getPhaseNumber Phase.presentation ∧ vocabularyContained sampleP2
  ∧ (∀ r ∈ applyOpsToStore [sampleP2]
        (handleSalesStageChange Phase.presentation "t1" [sampleP2] sampleP2 "Undecided" true).2,
      vocabularyContained r) :=
  ⟨rfl, by decide,
   (c2_vocab_containment_amended Phase.presentation "t1" [sampleP2] sampleP2 true rfl
      (by decide)).1 "Undecided" (by decide)⟩

/-- A second contact whose business name matches `sampleLead` up to
trimming and case. -/
def sampleP2dup : Contact :=
  { sampleLead with id := "dup2", business_name := some " ACME BAKERY " }

/-- Lowercasing preserves emptiness of a string. -/
theorem jsToLower_eq_empty (s : String) : jsToLower s = "" ↔ s = "" := by
  unfold jsToLower
  cases s with
  | mk data =>
    cases data with
    | nil => simp
    | cons c cs =>
      constructor
      · intro h
        exact absurd (congrArg String.data h) (by simp)
      · intro h
        exact absurd (congrArg String.data h) (by simp)

/-- C6: for a phase-2 contact, the rejection save writes, in one patch,
`sales_stage = "Rejected"` and the notes with the tagged reason block
appended after a blank line (standing alone when notes was null/empty),
leaves `current_phase` at 2, removes the contact from the phase-2 active
view (both the local list and the archived-stage filter of
`fetchContacts`), and never deletes the record. -/
theorem c6_rejection_flow (now : String) (contacts : List Contact) (c : Contact)
    (reason : String) (hphase : c.current_phase = 2) :
    ∃ p : Patch,
      handleRejectionSave now contacts c reason true
        = (contacts.filter (fun x => x.id != c.id),
           [Op.updateWrite c.id p true, Op.toastSuccess "Contact archived as rejected"])
    ∧ p.sales_stage = some "Rejected"
    ∧ p.current_phase = none
    ∧ p.notes = some (some (rejectionNewNotes c.notes reason))
    ∧ (applyPatch c p).sales_stage = "Rejected"
    ∧ (applyPatch c p).current_phase = 2
    ∧ (∀ s, c.notes = some s → s ≠ "" →
        rejectionNewNotes c.notes reason = s ++ "\n\n[REJECTION REASON]: " ++ reason)
    ∧ ((c.notes = none ∨ c.notes = some "") →
        rejectionNewNotes c.notes reason = "[REJECTION REASON]: " ++ reason)
    ∧ (∀ i ok2, Op.deleteWrite i ok2 ∉ (handleRejectionSave now contacts c reason true).2)
    ∧ applyOpsToStore [c] (handleRejectionSave now contacts c reason true).2
        = [applyPatch c p]
    ∧ fetchContacts (applyOpsToStore [c] (handleRejectionSave now contacts c reason true).2)
        c.category_id Phase.presentation = [] := by
  refine ⟨{ sales_stage := some "Rejected",
            notes := some (some (rejectionNewNotes c.notes reason)),
            updated_at := some now },
    rfl, rfl, rfl, rfl, rfl, ?_, ?_, ?_, ?_, ?_, ?_⟩
  · simp [applyPatch, hphase]
  · intro s hs hne
    simp [rejectionNewNotes, hs, hne]
  · rintro (h | h) <;> simp [rejectionNewNotes, h]
  · intro i ok2
    simp [handleRejectionSave]
  · simp [applyOpsToStore, applyOpToStore, handleRejectionSave]
  · simp [fetchContacts, applyOpsToStore, applyOpToStore, handleRejectionSave, applyPatch,
      hphase, getPhaseNumber]

/-- C6 witness: rejecting a concrete phase-2 contact with reason
"budget". -/
theorem c6_rejection_flow_witness :
    sampleP2.current_phase = 2 ∧
    ∃ p : Patch,
      handleRejectionSave "t1" [sampleP2] sampleP2 "budget" true
        = ([sampleP2].filter (fun x => x.id != sampleP2.id),
           [Op.updateWrite sampleP2.id p true, Op.toastSuccess "Contact archived as rejected"])
    ∧ p.sales_stage = some "Rejected"
    ∧ p.current_phase = none
    ∧ p.notes = some (some (rejectionNewNotes sampleP2.notes "budget"))
    ∧ (applyPatch sampleP2 p).sales_stage = "Rejected"
    ∧ (applyPatch sampleP2 p).current_phase = 2
    ∧ (∀ s, sampleP2.notes = some s → s ≠ "" →
        rejectionNewNotes sampleP2.notes "budget" = s ++ "\n\n[REJECTION REASON]: " ++ "budget")
    ∧ ((sampleP2.notes = none ∨ sampleP2.notes = some "") →
        rejectionNewNotes sampleP2.notes "budget" = "[REJECTION REASON]: " ++ "budget")
    ∧ (∀ i ok2,
        Op.deleteWrite i ok2 ∉ (handleRejectionSave "t1" [sampleP2] sampleP2 "budget" true).2)
    ∧ applyOpsToStore [sampleP2] (handleRejectionSave "t1" [sampleP2] sampleP2 "budget" true).2
        = [applyPatch sampleP2 p]
    ∧ fetchContacts
        (applyOpsToStore [sampleP2] (handleRejectionSave "t1" [sampleP2] sampleP2 "budget" true).2)
        sampleP2.category_id Phase.presentation = [] :=
  ⟨rfl, c6_rejection_flow "t1" [sampleP2] sampleP2 "budget" rfl⟩

/-- C8 counterexample: when the transition write of a phase-1 "Demo Stage"
change fails, the handler emits only the failed write and an error toast —
no view re-fetch occurs (and the local view is left unchanged). -/
theorem c8_counterexample :
    (handleSalesStageChange Phase.lead "t1" [sampleLead] sampleLead "Demo Stage" false).2
      = [Op.updateWrite sampleLead.id
           { sales_stage := some "Request Demo", current_phase := some 2,
             updated_at := some "t1" } false,
         Op.toastError "Failed to move client"]
  ∧ Op.refetch
      ∉ (handleSalesStageChange Phase.lead "t1" [sampleLead] sampleLead "Demo Stage" false).2
  ∧ (handleSalesStageChange Phase.lead "t1" [sampleLead] sampleLead "Demo Stage" false).1
      = [sampleLead] := by decide

/-- C8 amended: every failed write surfaces an error toast; a plain field
edit keeps its optimistic in-memory value (no rollback); a failed
transition or rejection write leaves the local view unchanged (the
removal only happens on success), and no re-fetch is issued. -/
theorem c8_failure_handling_amended (now : String) (contacts : List Contact) (c : Contact) :
    (∀ id field v,
        Op.toastError "Failed to save changes"
          ∈ (handleUpdateImmediate now contacts id field v false).2
      ∧ (handleUpdateImmediate now contacts id field v false).1
          = contacts.map (fun x =>
              if x.id = id then
                applyPatch x (fieldPatch field (normalizeUpdateValue field v) now) else x)
      ∧ Op.refetch ∉ (handleUpdateImmediate now contacts id field v false).2)
  ∧ (∀ phase s,
        ((phase = Phase.lead ∧ s = "Demo Stage") ∨ (phase = Phase.presentation ∧ s = "Approved")) →
        Op.toastError "Failed to move client"
          ∈ (handleSalesStageChange phase now contacts c s false).2
      ∧ (handleSalesStageChange phase now contacts c s false).1 = contacts
      ∧ Op.refetch ∉ (handleSalesStageChange phase now contacts c s false).2)
  ∧ (∀ reason,
        Op.toastError "Failed to save rejection"
          ∈ (handleRejectionSave now contacts c reason false).2
      ∧ (handleRejectionSave now contacts c reason false).1 = contacts
      ∧ Op.refetch ∉ (handleRejectionSave now contacts c reason false).2) := by
  refine ⟨?_, ?_, ?_⟩
  · intro id field v
    refine ⟨by simp [handleUpdateImmediate], rfl, by simp [handleUpdateImmediate]⟩
  · rintro phase s (⟨rfl, rfl⟩ | ⟨rfl, rfl⟩) <;>
      exact ⟨by simp [handleSalesStageChange, getPhaseTransition],
        rfl, by simp [handleSalesStageChange, getPhaseTransition]⟩
  · intro reason
    exact ⟨by simp [handleRejectionSave], rfl, by simp [handleRejectionSave]⟩

/-- C8 amended witness: the failed "Demo Stage" transition on a concrete
phase-1 contact. -/
theorem c8_failure_handling_amended_witness :
    ((Phase.lead = Phase.lead ∧ "Demo Stage" = "Demo Stage")
        ∨ (Phase.lead = Phase.presentation ∧ "Demo Stage" = "Approved"))
  ∧ (Op.toastError "Failed to move client"
        ∈ (handleSalesStageChange Phase.lead "t1" [sampleLead] sampleLead "Demo Stage" false).2
    ∧ (handleSalesStageChange Phase.lead "t1" [sampleLead] sampleLead "Demo Stage" false).1
        = [sampleLead]
    ∧ Op.refetch
        ∉ (handleSalesStageChange Phase.lead "t1" [sampleLead] sampleLead "Demo Stage" false).2) :=
  ⟨Or.inl ⟨rfl, rfl⟩,
   (c8_failure_handling_amended "t1" [sampleLead] sampleLead).2.1 Phase.lead "Demo Stage"
     (Or.inl ⟨rfl, rfl⟩)⟩

/-- C9: duplicate reporting is symmetric. If contact A is reported as a
duplicate of B on an identity-like field (their trimmed, case-folded
values are equal, both non-blank by the guards of `findDuplicates`), then
B is reported as a duplicate of A on that field within the same view. -/
theorem c9_duplicate_symmetry (contacts : List Contact) (f : DupField) (A B : Contact)
    (hB : B ∈ contacts)
    (hA : A ∈ findDuplicates contacts f B.id (dupFieldValue B f)) :
    B ∈ findDuplicates contacts f A.id (dupFieldValue A f) := by
  cases hvB : dupFieldValue B f with
  | none => rw [hvB] at hA; simp [findDuplicates] at hA
  | some v =>
    rw [hvB] at hA
    by_cases hv : jsTrim v = ""
    · simp [findDuplicates, hv] at hA
    · simp only [findDuplicates, if_neg hv, List.mem_filter, Bool.and_eq_true, bne_iff_ne,
        beq_iff_eq] at hA
      obtain ⟨hAmem, ⟨hne, htruthy⟩, heq⟩ := hA
      cases hvA : dupFieldValue A f with
      | none => rw [hvA] at htruthy; simp [jsTruthy] at htruthy
      | some a =>
        rw [hvA] at htruthy heq
        simp only [Option.getD_some] at heq
        have haa : jsTrim a ≠ "" := by
          intro h0
          rw [h0] at heq
          have h1 : jsToLower (jsTrim v) = "" := by rw [← heq]; rfl
          exact hv ((jsToLower_eq_empty (jsTrim v)).mp h1)
        simp only [findDuplicates, if_neg haa, List.mem_filter, Bool.and_eq_true, bne_iff_ne,
          beq_iff_eq]
        refine ⟨hB, ⟨fun h => hne h.symm, ?_⟩, ?_⟩
        · rw [hvB]
          simp only [jsTruthy, ne_eq, decide_eq_true_eq]
          intro h0
          exact hv (by rw [h0]; rfl)
        · rw [hvB]
          simp only [Option.getD_some]
          exact heq.symm

/-- C9 witness: "Acme Bakery" and " ACME BAKERY " match in both
directions. -/
theorem c9_duplicate_symmetry_witness :
    sampleLead ∈ [sampleLead, sampleP2dup]
  ∧ sampleLead ∈ findDuplicates [sampleLead, sampleP2dup] DupField.business_name
      sampleP2dup.id (dupFieldValue sampleP2dup DupField.business_name)
  ∧ sampleP2dup ∈ findDuplicates [sampleLead, sampleP2dup] DupField.business_name
      sampleLead.id (dupFieldValue sampleLead DupField.business_name) :=
  ⟨by decide, by decide,
   c9_duplicate_symmetry [sampleLead, sampleP2dup] DupField.business_name sampleLead sampleP2dup
     (by decide) (by decide)⟩

/-- C10: blurring the business-name cell of the freshly added row with a
blank confirmed value, when the row (as rendered) has no business name,
email, or mobile number, hard-deletes the record; a blur of any other
cell, a non-new row, or a non-empty row only writes the edited field and
never deletes. -/
theorem c10_blur_delete (now : String) (contacts : List Contact) (newRowId : Option String)
    (editValue : String) (id field : String) (wOk dOk : Bool) :
    (∀ c, newRowId = some id → jsTrim editValue = "" → field = "business_name" →
      contacts.find? (fun x => x.id == id) = some c →
      ¬ jsTruthy c.business_name → ¬ jsTruthy c.email → ¬ jsTruthy c.mobile_number →
      Op.deleteWrite id dOk ∈ (handleBlur now contacts newRowId editValue id field wOk dOk).2)
  ∧ (¬ (newRowId = some id ∧ jsTrim editValue = "" ∧ field = "business_name") →
      handleBlur now contacts newRowId editValue id field wOk dOk
        = handleUpdateImmediate now contacts id field (.str editValue) wOk)
  ∧ (∀ c, contacts.find? (fun x => x.id == id) = some c →
      (jsTruthy c.business_name ∨ jsTruthy c.email ∨ jsTruthy c.mobile_number) →
      handleBlur now contacts newRowId editValue id field wOk dOk
        = handleUpdateImmediate now contacts id field (.str editValue) wOk)
  ∧ (∀ i ok2, Op.deleteWrite i ok2
        ∉ (handleUpdateImmediate now contacts id field (.str editValue) wOk).2) := by
  refine ⟨?_, ?_, ?_, ?_⟩
  · intro c h1 h2 h3 hfind hb he hm
    unfold handleBlur
    rw [if_pos ⟨h1, h2, h3⟩]
    simp only [hfind]
    rw [if_pos ⟨hb, he, hm⟩]
    cases dOk <;> simp [handleDelete]
  · intro h
    unfold handleBlur
    rw [if_neg h]
  · intro c hfind hor
    unfold handleBlur
    by_cases hcond : newRowId = some id ∧ jsTrim editValue = "" ∧ field = "business_name"
    · rw [if_pos hcond]
      simp only [hfind]
      rw [if_neg (by tauto)]
    · rw [if_neg hcond]
  · intro i ok2
    cases wOk <;> simp [handleUpdateImmediate]

/-- C10 witness: a fresh empty row blurred with a blank business name is
deleted. -/
theorem c10_blur_delete_witness :
    jsTrim " " = ""
  ∧ List.find? (fun x => x.id == "new1")
      [newContactRecord "new1" "cat1" Phase.lead (some "agent") "t0"]
      = some (newContactRecord "new1" "cat1" Phase.lead (some "agent") "t0")
  ∧ Op.deleteWrite "new1" true
      ∈ (handleBlur "t1" [newContactRecord "new1" "cat1" Phase.lead (some "agent") "t0"]
          (some "new1") " " "new1" "business_name" true true).2 :=
  ⟨by decide, by decide,
   (c10_blur_delete "t1" [newContactRecord "new1" "cat1" Phase.lead (some "agent") "t0"]
       (some "new1") " " "new1" "business_name" true true).1
     (newContactRecord "new1" "cat1" Phase.lead (some "agent") "t0")
     rfl (by decide) rfl (by decide) (by decide) (by decide) (by decide)⟩

/-- C7 amended: the `value` field parses stripped free text to a number or
null on failure ("₱12,000" gives the number 12000); the `contact_count`
field always normalizes to a number (0 on parse failure, never null);
other fields trim strings, turning blank input into null, and pass
non-string values through unchanged. -/
theorem c7_normalization_amended :
    normalizeUpdateValue "value" (.str "₱12,000") = .num 12000
  ∧ (∀ s, normalizeUpdateValue "value" (.str s) = .null
        ∨ ∃ q : ℚ, normalizeUpdateValue "value" (.str s) = .num q)
  ∧ (∀ s, ∃ n : Int, normalizeUpdateValue "contact_count" (.str s) = .num (n : ℚ))
  ∧ (∀ field s, field ≠ "contact_count" → field ≠ "value" →
      normalizeUpdateValue field (.str s)
        = if jsTrim s = "" then .null else .str (jsTrim s))
  ∧ (∀ field n, field ≠ "contact_count" → field ≠ "value" →
      normalizeUpdateValue field (.num n) = .num (n : ℚ)) := by
  refine ⟨?_, ?_, ?_, ?_, ?_⟩
  · have h1 : normalizeUpdateValue "value" (.str "₱12,000")
        = FieldValue.num ((digitsToNat ['1', '2', '0', '0', '0'] : ℚ)
            + (digitsToNat [] : ℚ) / (10 : ℚ) ^ (List.length ([] : List Char))) := rfl
    rw [h1, show digitsToNat ['1', '2', '0', '0', '0'] = 12000 from by decide,
        show digitsToNat ([] : List Char) = 0 from by decide]
    norm_num
  · intro s
    unfold normalizeUpdateValue
    rw [if_neg (by decide), if_pos rfl]
    cases parseFloatStripped (stripNonDigitDot (fieldInputToString (.str s))) with
    | none => exact Or.inl rfl
    | some q => exact Or.inr ⟨q, rfl⟩
  · intro s
    unfold normalizeUpdateValue
    rw [if_pos rfl]
    exact ⟨jsParseIntOr0 s, rfl⟩
  · intro field s h1 h2
    unfold normalizeUpdateValue
    rw [if_neg h1, if_neg h2]
  · intro field n h1 h2
    unfold normalizeUpdateValue
    rw [if_neg h1, if_neg h2]

/-- C7 amended witness: a generic text field trims its input. -/
theorem c7_normalization_amended_witness :
    ("notes" : String) ≠ "contact_count" ∧ ("notes" : String) ≠ "value"
  ∧ normalizeUpdateValue "notes" (.str "  hi ")
      = if jsTrim "  hi " = "" then FieldValue.null else .str (jsTrim "  hi ") :=
  ⟨by decide, by decide,
   c7_normalization_amended.2.2.2.1 "notes" "  hi " (by decide) (by decide)⟩

end CRM
